import Mathlib

/-!
Shallow embedding of `src/backend/app.py` (a Flask book-record service)
and proofs about its validator, listing, update/delete and stats logic.

Modelling conventions:
* Python/JSON scalar values are modelled by `BookApp.Value`
  (strings, `None`, ints, floats-as-rationals, booleans); containers are
  not modelled, no claim depends on them.
* Python floats are modelled as rationals; `round` is modelled as
  round-half-to-even (the rounding mode Python uses).
* `str.strip` / `str.lower` are modelled for ASCII input by list-based
  functions (the Lean core versions do not reduce in the kernel).
* `int(...)` / `float(...)` on strings are modelled for plain decimal
  literals with optional sign and fraction part (no exponent notation,
  underscores, `inf`/`nan`); no claim exercises those forms.
* SQL ILIKE with a pattern %q% is modelled as case-insensitive substring containment
  (the `%`/`_` wildcard characters inside `q` itself are not modelled).
* The database table is modelled as a `List Book`; SQL `ORDER BY` is
  modelled as sorting by the chosen column (tie order is unspecified in
  SQL, the model fixes one by insertion sort).
-/

namespace BookApp

/-- A Python/JSON scalar value as it can appear in a request payload. -/
inductive Value where
  | str (s : String)
  | null
  | int (n : ℤ)
  | float (q : ℚ)
  | bool (b : Bool)
deriving DecidableEq

/-- A JSON object payload: an association list of key/value bindings
(first binding wins, as in a Python `dict`). -/
abbrev Payload := List (String × Value)

/-- `dict.get(k, dflt)`. -/
def Payload.get (d : Payload) (k : String) (dflt : Value) : Value :=
  match d.lookup k with
  | some v => v
  | none => dflt

/-- Characters stripped by Python `str.strip()` (ASCII whitespace). -/
def isSpaceChar (c : Char) : Bool :=
  c == ' ' || c == '\t' || c == '\n' || c == '\r' || c == '\x0b' || c == '\x0c'

/-- Python `str.strip()` (ASCII whitespace). -/
def pyStrip (s : String) : String :=
  ⟨((s.data.dropWhile isSpaceChar).reverse.dropWhile isSpaceChar).reverse⟩

/-- ASCII lower-casing of one character. -/
def lowerChar (c : Char) : Char :=
  if 'A' ≤ c && c ≤ 'Z' then Char.ofNat (c.toNat + 32) else c

/-- Python `str.lower()` (ASCII). -/
def pyLower (s : String) : String := ⟨s.data.map lowerChar⟩

/-- Python `str(v)` for the modelled scalar values.  `str(None) = "None"`,
`str(True) = "True"`.  The float case renders integral rationals the way
Python renders integral floats (`"3.0"`); non-integral rationals are
rendered as `num/den`, an approximation that no claim exercises (no claim
feeds a float where a string is expected). -/
def pyStr : Value → String
  | .str s => s
  | .null => "None"
  | .int n => toString n
  | .float q => if q.den = 1 then toString q.num ++ ".0" else toString q
  | .bool b => if b then "True" else "False"

/-- Accumulate the value of a digit string; `none` if a non-digit occurs. -/
def digitsToNat (acc : ℕ) : List Char → Option ℕ
  | [] => some acc
  | c :: cs => if c.isDigit then digitsToNat (acc * 10 + (c.toNat - 48)) cs else none

/-- A non-empty all-digit string, as a number. -/
def parseDigits (cs : List Char) : Option ℕ :=
  if cs.isEmpty then none else digitsToNat 0 cs

/-- Python `int(s)` on a stripped string: optional sign, then digits. -/
def parseIntChars : List Char → Option ℤ
  | '+' :: rest => (parseDigits rest).map Int.ofNat
  | '-' :: rest => (parseDigits rest).map (fun n => -(n : ℤ))
  | rest => (parseDigits rest).map Int.ofNat

/-- Split a char list at the first dot character. -/
def splitAtDot : List Char → List Char × Option (List Char)
  | [] => ([], none)
  | '.' :: rest => ([], some rest)
  | c :: rest =>
    let p := splitAtDot rest
    (c :: p.1, p.2)

/-- Unsigned decimal literal `digits[.digits]` with at least one digit.
The value `i.f` is built as a single `mkRat` so that it reduces in the
kernel. -/
def parseUnsignedFloat (cs : List Char) : Option ℚ :=
  let p := splitAtDot cs
  match p.2 with
  | none => (parseDigits p.1).map (fun n => (n : ℚ))
  | some frac =>
    if p.1.isEmpty && frac.isEmpty then none
    else
      match digitsToNat 0 p.1, digitsToNat 0 frac with
      | some i, some f => some (mkRat (i * 10 ^ frac.length + f) (10 ^ frac.length))
      | _, _ => none

/-- Python `float(s)` on a stripped string: optional sign, then a decimal
literal. -/
def parseFloatChars : List Char → Option ℚ
  | '+' :: rest => parseUnsignedFloat rest
  | '-' :: rest => (parseUnsignedFloat rest).map Neg.neg
  | rest => parseUnsignedFloat rest

/-- Python `int(v)`, returning `none` where Python raises.  Floats
truncate toward zero; strings are stripped then parsed. -/
def pyInt : Value → Option ℤ
  | .int n => some n
  | .float q => some (if q < 0 then -((-q).floor) else q.floor)
  | .str s => parseIntChars (pyStrip s).data
  | .bool b => some (if b then 1 else 0)
  | .null => none

/-- Python `float(v)`, returning `none` where Python raises. -/
def pyFloat : Value → Option ℚ
  | .int n => some (n : ℚ)
  | .float q => some q
  | .str s => parseFloatChars (pyStrip s).data
  | .bool b => some (if b then 1 else 0)
  | .null => none

/-- `_safe_int(val, default)` from `app.py`. -/
def safe_int (v : Value) (dflt : Option ℤ) : Option ℤ :=
  match pyInt v with
  | some n => some n
  | none => dflt

/-- `_safe_float(val, default)` from `app.py`. -/
def safe_float (v : Value) (dflt : Option ℚ) : Option ℚ :=
  match pyFloat v with
  | some q => some q
  | none => dflt

/-- `PLACEHOLDER_IMG` from `app.py`. -/
def PLACEHOLDER_IMG : String := "https://placehold.co/160x220?text=Book"

/-- `CATEGORY_OPTIONS` from `app.py`. -/
def CATEGORY_OPTIONS : List String :=
  ["Fantasy", "Sci-Fi", "Classic", "Horror", "Mystery", "Non-Fiction", "Other"]

/-- `ALLOWED_PAGE_SIZES` from `app.py` (a Python set; membership is all
that is used). -/
def ALLOWED_PAGE_SIZES : List ℤ := [5, 10, 20, 50]

/-- `ALLOWED_SORT_FIELDS` from `app.py`. -/
def ALLOWED_SORT_FIELDS : List String :=
  ["title", "author", "year", "rating", "price", "created_at"]

/-- The cleaned record produced by `validate_book_payload`. -/
structure Cleaned where
  title : String
  author : String
  year : ℤ
  category : String
  rating : ℚ
  price : ℚ
  image_url : String
deriving DecidableEq

/-- The local `title = str(data.get("title", "")).strip()` of the
validator. -/
def payload_title (data : Payload) : String :=
  pyStrip (pyStr (data.get "title" (.str "")))

/-- The local `author` of the validator. -/
def payload_author (data : Payload) : String :=
  pyStrip (pyStr (data.get "author" (.str "")))

/-- The local `year = _safe_int(data.get("year", None), default=None)`. -/
def payload_year (data : Payload) : Option ℤ :=
  safe_int (data.get "year" .null) none

/-- The local `category = str(data.get("category", "Other")).strip() or
"Other"`. -/
def payload_category (data : Payload) : String :=
  let c0 := pyStrip (pyStr (data.get "category" (.str "Other")))
  if c0 = "" then "Other" else c0

/-- The local `rating = _safe_float(data.get("rating", 0), default=None)`. -/
def payload_rating (data : Payload) : Option ℚ :=
  safe_float (data.get "rating" (.int 0)) none

/-- The local `price = _safe_float(data.get("price", 0), default=None)`. -/
def payload_price (data : Payload) : Option ℚ :=
  safe_float (data.get "price" (.int 0)) none

/-- The local `image_url = str(data.get("imageUrl", "")).strip()`. -/
def payload_image (data : Payload) : String :=
  pyStrip (pyStr (data.get "imageUrl" (.str "")))

/-- `validate_book_payload(data)` from `app.py`: returns the
`(error, cleaned)` pair exactly as the Python function does. -/
def validate_book_payload (data : Payload) : Option String × Option Cleaned :=
  if payload_title data = "" then (some "Title is required.", none)
  else if payload_author data = "" then (some "Author is required.", none)
  else
    match payload_year data with
    | none => (some "Year is required (number).", none)
    | some y =>
      if y < 0 ∨ y > 2100 then (some "Year must be between 0 and 2100.", none)
      else
        let category :=
          if payload_category data ∈ CATEGORY_OPTIONS then payload_category data else "Other"
        match payload_rating data with
        | none => (some "Rating must be a number.", none)
        | some r =>
          if r < 0 ∨ r > 5 then (some "Rating must be 0–5.", none)
          else
            match payload_price data with
            | none => (some "Price must be a number.", none)
            | some p =>
              if p < 0 then (some "Price must be >= 0.", none)
              else
                let image_url :=
                  if payload_image data = "" then PLACEHOLDER_IMG else payload_image data
                (none, some ⟨payload_title data, payload_author data, y, category, r, p,
                  image_url⟩)

/-- Failure of the "title present" rule. -/
def fails_title (data : Payload) : Bool := payload_title data == ""

/-- Failure of the "author present" rule. -/
def fails_author (data : Payload) : Bool := payload_author data == ""

/-- Failure of the "year present and numeric" rule. -/
def fails_year_presence (data : Payload) : Bool := (payload_year data).isNone

/-- Failure of the "year in range" rule. -/
def fails_year_range (data : Payload) : Bool :=
  match payload_year data with
  | none => false
  | some y => decide (y < 0 ∨ y > 2100)

/-- Failure of the "rating numeric" rule. -/
def fails_rating_numeric (data : Payload) : Bool := (payload_rating data).isNone

/-- Failure of the "rating in range" rule. -/
def fails_rating_range (data : Payload) : Bool :=
  match payload_rating data with
  | none => false
  | some r => decide (r < 0 ∨ r > 5)

/-- Failure of the "price numeric" rule. -/
def fails_price_numeric (data : Payload) : Bool := (payload_price data).isNone

/-- Failure of the "price in range" rule. -/
def fails_price_range (data : Payload) : Bool :=
  match payload_price data with
  | none => false
  | some p => decide (p < 0)

/-- Modelled from the spec: the error of the first failing rule, in the
fixed order of the spec (title present → author present → year present and
numeric → year in range → rating numeric → rating in range → price
numeric → price in range); `none` when every rule passes. -/
def spec_first_failing (data : Payload) : Option String :=
  if fails_title data then some "Title is required."
  else if fails_author data then some "Author is required."
  else if fails_year_presence data then some "Year is required (number)."
  else if fails_year_range data then some "Year must be between 0 and 2100."
  else if fails_rating_numeric data then some "Rating must be a number."
  else if fails_rating_range data then some "Rating must be 0–5."
  else if fails_price_numeric data then some "Price must be a number."
  else if fails_price_range data then some "Price must be >= 0."
  else none

/-- A row of the `books` table.  `created_at` is an abstract timestamp
(ordered); ratings and prices are rationals. -/
structure Book where
  id : ℤ
  title : String
  author : String
  year : ℤ
  category : String
  rating : ℚ
  price : ℚ
  image_url : String
  created_at : ℤ
deriving DecidableEq

/-- A sample row used in concrete witnesses: id `i`, title `t`, author
"A", year 2000, category `cat`, rating 3, price 10, creation time `i`. -/
def bk (i : ℤ) (t : String) (cat : String) : Book :=
  ⟨i, t, "A", 2000, cat, 3, 10, PLACEHOLDER_IMG, i⟩

/-- The query-string arguments of `GET /api/books` (each one a raw string
when present). -/
structure ListArgs where
  page : Option String
  pageSize : Option String
  q : Option String
  category : Option String
  sortBy : Option String
  sortDir : Option String
deriving DecidableEq

/-- `_safe_int(request.args.get(k, dflt), default=dflt)`: the parameter
parsed as an int, with `dflt` both when absent and when unparsable. -/
def arg_int (a : Option String) (dflt : ℤ) : ℤ :=
  match a with
  | none => dflt
  | some s => (pyInt (.str s)).getD dflt

/-- The `page` value of `get_books` after the `if page < 1` clamp. -/
def resolved_page (args : ListArgs) : ℤ :=
  let p := arg_int args.page 1
  if p < 1 then 1 else p

/-- The `page_size` value of `get_books` after the allowed-set check. -/
def resolved_page_size (args : ListArgs) : ℤ :=
  let ps := arg_int args.pageSize 10
  if ps ∈ ALLOWED_PAGE_SIZES then ps else 10

/-- The stripped free-text query `q` of `get_books`. -/
def q_arg (args : ListArgs) : String := pyStrip (args.q.getD "")

/-- The stripped `category` filter of `get_books`. -/
def category_arg (args : ListArgs) : String := pyStrip (args.category.getD "")

/-- The `sort_by` value of `get_books` after the allowed-set check. -/
def resolved_sort_by (args : ListArgs) : String :=
  let s := pyStrip (args.sortBy.getD "created_at")
  if s ∈ ALLOWED_SORT_FIELDS then s else "created_at"

/-- The `sort_dir` value of `get_books` after lower-casing and the
`{"asc","desc"}` check. -/
def resolved_sort_dir (args : ListArgs) : String :=
  let s := pyLower (pyStrip (args.sortDir.getD "desc"))
  if s = "asc" ∨ s = "desc" then s else "desc"

/-- Does `needle` occur at the head of `hay`? -/
def startsWith : List Char → List Char → Bool
  | _, [] => true
  | [], _ :: _ => false
  | h :: hs, n :: ns => h == n && startsWith hs ns

/-- Does `needle` occur anywhere in `hay`? -/
def hasSubstr : List Char → List Char → Bool
  | [], needle => needle.isEmpty
  | h :: t, needle => startsWith (h :: t) needle || hasSubstr t needle

/-- SQL ILIKE of a column against a pattern %pat%: case-insensitive substring containment. -/
def ilike (hay pat : String) : Bool :=
  hasSubstr (pyLower hay).data (pyLower pat).data

/-- The conjunction of the two optional filters of `get_books`: free-text
match on title or author, and exact category equality. -/
def book_matches (qs cs : String) (b : Book) : Bool :=
  (qs == "" || (ilike b.title qs || ilike b.author qs))
    && (cs == "" || b.category == cs)

/-- Lexicographic strict order on strings by code point (the collation this model
uses for SQL ORDER BY on string columns). -/
def lexLt : List Char → List Char → Bool
  | [], [] => false
  | [], _ :: _ => true
  | _ :: _, [] => false
  | a :: as, b :: bs =>
    if a.val < b.val then true
    else if b.val < a.val then false
    else lexLt as bs

/-- Non-strict string comparison derived from `lexLt`. -/
def strLe (a b : String) : Bool := !(lexLt b.data a.data)

/-- Comparison of two rows on the resolved sort column (the `sort_col`
of `get_books`; the fallback branch is `created_at`, the only remaining
allowed field). -/
def colLE (field : String) (a b : Book) : Bool :=
  if field = "title" then strLe a.title b.title
  else if field = "author" then strLe a.author b.author
  else if field = "year" then decide (a.year ≤ b.year)
  else if field = "rating" then decide (a.rating ≤ b.rating)
  else if field = "price" then decide (a.price ≤ b.price)
  else decide (a.created_at ≤ b.created_at)

/-- Insert a row into a list sorted by `le`. -/
def insertSorted (le : Book → Book → Bool) (b : Book) : List Book → List Book
  | [] => [b]
  | c :: cs => if le b c then b :: c :: cs else c :: insertSorted le b cs

/-- Insertion sort: the model of SQL `ORDER BY` (tie order in SQL is
unspecified; the model fixes one). -/
def orderBooks (le : Book → Book → Bool) : List Book → List Book
  | [] => []
  | b :: bs => insertSorted le b (orderBooks le bs)

/-- `⌈a / b⌉` on naturals: the exact value of `math.ceil(total/page_size)`
for the magnitudes involved. -/
def ceil_div (a b : ℕ) : ℕ := (a + b - 1) / b

/-- The JSON body returned by `GET /api/books` (items kept as rows). -/
structure ListResponse where
  items : List Book
  total : ℕ
  page : ℤ
  pageSize : ℤ
  totalPages : ℤ
deriving DecidableEq

/-- The local `query` of `get_books` after both optional filters. -/
def filtered_books (store : List Book) (args : ListArgs) : List Book :=
  store.filter (book_matches (q_arg args) (category_arg args))

/-- The row comparison realized by `order_by(sort_col.asc() / .desc())`. -/
def sort_le (args : ListArgs) (a b : Book) : Bool :=
  if resolved_sort_dir args = "asc" then colLE (resolved_sort_by args) a b
  else colLE (resolved_sort_by args) b a

/-- The ordered filtered rows of `get_books`. -/
def ordered_books (store : List Book) (args : ListArgs) : List Book :=
  orderBooks (sort_le args) (filtered_books store args)

/-- The local `offset = (page - 1) * page_size` of `get_books`. -/
def listing_offset (args : ListArgs) : ℕ :=
  ((resolved_page args - 1) * resolved_page_size args).toNat

/-- The local `total_pages = max(1, math.ceil(total / page_size)) if total
else 1` of `get_books`. -/
def listing_total_pages (store : List Book) (args : ListArgs) : ℤ :=
  if (filtered_books store args).length = 0 then 1
  else max 1 (ceil_div (filtered_books store args).length (resolved_page_size args).toNat)

/-- `get_books()` from `app.py`, over an abstract table contents. -/
def get_books (store : List Book) (args : ListArgs) : ListResponse :=
  { items :=
      ((ordered_books store args).drop (listing_offset args)).take
        (resolved_page_size args).toNat
    total := (filtered_books store args).length
    page :=
      if resolved_page args > listing_total_pages store args ∧
          0 < (filtered_books store args).length then
        listing_total_pages store args
      else resolved_page args
    pageSize := resolved_page_size args
    totalPages := listing_total_pages store args }

/-- The outcome of a mutating endpoint together with its HTTP status.
`serverError` models a Python exception escaping the handler (HTTP 500);
it is reachable only if the validator returned `(None, None)`, which it
never does. -/
inductive MutationResult where
  | badRequest (msg : String)
  | notFound
  | okBook (b : Book)
  | okDeleted
  | serverError
deriving DecidableEq

/-- `setattr(b, k, v) for k, v in cleaned.items()`: overwrite exactly the
seven cleaned fields. -/
def apply_cleaned (b : Book) (c : Cleaned) : Book :=
  { b with
    title := c.title, author := c.author, year := c.year,
    category := c.category, rating := c.rating, price := c.price,
    image_url := c.image_url }

/-- Mutate the first row with the given id (the row `.first()` returned). -/
def replaceFirst (book_id : ℤ) (c : Cleaned) : List Book → List Book
  | [] => []
  | b :: bs =>
    if b.id == book_id then apply_cleaned b c :: bs
    else b :: replaceFirst book_id c bs

/-- Remove the first row with the given id (the row `db.delete` removed). -/
def removeFirst (book_id : ℤ) : List Book → List Book
  | [] => []
  | b :: bs => if b.id == book_id then bs else b :: removeFirst book_id bs

/-- `create_book()` from `app.py`; the database-assigned id and creation
time are parameters of the model. -/
def create_book (store : List Book) (data : Payload) (new_id : ℤ) (now : ℤ) :
    MutationResult × List Book :=
  match validate_book_payload data with
  | (some err, _) => (.badRequest err, store)
  | (none, none) => (.serverError, store)
  | (none, some c) =>
    let b : Book := ⟨new_id, c.title, c.author, c.year, c.category, c.rating, c.price,
      c.image_url, now⟩
    (.okBook b, store ++ [b])

/-- `update_book()` from `app.py`. -/
def update_book (store : List Book) (book_id : ℤ) (data : Payload) :
    MutationResult × List Book :=
  match validate_book_payload data with
  | (some err, _) => (.badRequest err, store)
  | (none, none) => (.serverError, store)
  | (none, some c) =>
    match store.find? (fun b => b.id == book_id) with
    | none => (.notFound, store)
    | some b => (.okBook (apply_cleaned b c), replaceFirst book_id c store)

/-- `delete_book()` from `app.py`. -/
def delete_book (store : List Book) (book_id : ℤ) : MutationResult × List Book :=
  match store.find? (fun b => b.id == book_id) with
  | none => (.notFound, store)
  | some _ => (.okDeleted, removeFirst book_id store)

/-- Python `round(q)` (one-argument form): round half to even. -/
def pyRound (q : ℚ) : ℤ :=
  let f := q.floor
  let r := q - (f : ℚ)
  if r < 1 / 2 then f
  else if 1 / 2 < r then f + 1
  else if f % 2 = 0 then f else f + 1

/-- Python `round(q, 2)`: round to two decimal places, half to even. -/
def round2 (q : ℚ) : ℚ := (pyRound (q * 100) : ℚ) / 100

/-- Sum of the `year` column. -/
def sum_years (store : List Book) : ℤ := (store.map Book.year).sum

/-- Sum of the `rating` column. -/
def sum_ratings (store : List Book) : ℚ := (store.map Book.rating).sum

/-- Sum of the `price` column. -/
def sum_prices (store : List Book) : ℚ := (store.map Book.price).sum

/-- `SELECT category, COUNT(id) ... GROUP BY category`: one pair per
distinct category present (group order is unspecified in SQL; the model
fixes one). -/
def count_by_category (store : List Book) : List (String × ℕ) :=
  ((store.map Book.category).dedup).map
    (fun c => (c, ((store.map Book.category).filter (· == c)).length))

/-- The JSON body returned by `GET /api/stats`. -/
structure StatsResponse where
  total : ℕ
  pageSize : ℤ
  averagePublicationYear : ℤ
  averageRating : ℚ
  totalValue : ℚ
  countByCategory : List (String × ℕ)
deriving DecidableEq

/-- The `page_size` value of `stats` after the allowed-set check. -/
def stats_page_size (a : Option String) : ℤ :=
  let ps := arg_int a 10
  if ps ∈ ALLOWED_PAGE_SIZES then ps else 10

/-- `stats()` from `app.py`.  SQL `AVG`/`SUM` return `NULL` on an empty
table, which the `or 0` in the handler maps to `0`. -/
def stats (store : List Book) (pageSizeArg : Option String) : StatsResponse :=
  let total := store.length
  let avg_year : ℚ := if total = 0 then 0 else (sum_years store : ℚ) / (total : ℚ)
  let avg_rating : ℚ := if total = 0 then 0 else sum_ratings store / (total : ℚ)
  let total_value : ℚ := if total = 0 then 0 else sum_prices store
  { total := total
    pageSize := stats_page_size pageSizeArg
    averagePublicationYear := if total ≠ 0 then pyRound avg_year else 0
    averageRating := round2 avg_rating
    totalValue := round2 total_value
    countByCategory := count_by_category store }

/-! Helper lemmas. -/

lemma rat_floor_eq_intFloor (q : ℚ) : q.floor = ⌊q⌋ := rfl

lemma length_insertSorted (le : Book → Book → Bool) (b : Book) (l : List Book) :
    (insertSorted le b l).length = l.length + 1 := by
  induction l with
  | nil => rfl
  | cons c cs ih =>
    unfold insertSorted
    split
    · simp
    · simp [ih]

lemma length_orderBooks (le : Book → Book → Bool) (l : List Book) :
    (orderBooks le l).length = l.length := by
  induction l with
  | nil => rfl
  | cons b bs ih => simp [orderBooks, length_insertSorted, ih]

lemma validate_exclusive (data : Payload) :
    (validate_book_payload data).1 = none ↔ (validate_book_payload data).2.isSome := by
  unfold validate_book_payload
  cases hy : payload_year data <;> cases hr : payload_rating data <;>
    cases hp : payload_price data <;> dsimp only <;> split_ifs <;> simp

lemma abs_pyRound_sub_le (q : ℚ) : |(pyRound q : ℚ) - q| ≤ 1 / 2 := by
  have h0 : ((q.floor : ℤ) : ℚ) ≤ q := Int.floor_le q
  have h1 : q < ((q.floor : ℤ) : ℚ) + 1 := Int.lt_floor_add_one q
  unfold pyRound
  dsimp only
  split_ifs with hlt hgt heven <;>
    · push_cast
      rw [abs_le]
      constructor <;> linarith

lemma abs_round2_sub_le (q : ℚ) : |round2 q - q| ≤ 1 / 200 := by
  have h := abs_pyRound_sub_le (q * 100)
  unfold round2
  have : (pyRound (q * 100) : ℚ) / 100 - q = ((pyRound (q * 100) : ℚ) - q * 100) / 100 := by
    ring
  rw [this, abs_div]
  have h100 : |(100 : ℚ)| = 100 := by norm_num
  rw [h100]
  linarith

lemma round2_den (q : ℚ) : ∃ k : ℤ, round2 q = (k : ℚ) / 100 :=
  ⟨pyRound (q * 100), rfl⟩

lemma resolved_page_ge_one (a : ListArgs) : 1 ≤ resolved_page a := by
  unfold resolved_page
  dsimp only
  split_ifs with h <;> omega

lemma resolved_page_size_mem (a : ListArgs) :
    resolved_page_size a ∈ ALLOWED_PAGE_SIZES := by
  unfold resolved_page_size
  dsimp only
  split_ifs with h
  · exact h
  · decide

lemma resolved_page_size_pos (a : ListArgs) : 0 < resolved_page_size a := by
  have h := resolved_page_size_mem a
  simp only [ALLOWED_PAGE_SIZES, List.mem_cons, List.not_mem_nil, or_false] at h
  rcases h with h | h | h | h <;> rw [h] <;> decide

lemma le_ceil_div_mul (a b : ℕ) (hb : 0 < b) : a ≤ ceil_div a b * b := by
  unfold ceil_div
  have h1 : b * ((a + b - 1) / b) + (a + b - 1) % b = a + b - 1 := Nat.div_add_mod _ b
  have h2 : (a + b - 1) % b < b := Nat.mod_lt _ hb
  have h3 : (a + b - 1) / b * b = b * ((a + b - 1) / b) := Nat.mul_comm _ _
  rw [h3]
  omega

lemma validate_snd_some (data : Payload) (c : Cleaned)
    (h : (validate_book_payload data).2 = some c) :
    payload_title data ≠ "" ∧ payload_author data ≠ "" ∧
    ∃ y, payload_year data = some y ∧ 0 ≤ y ∧ y ≤ 2100 ∧
    ∃ r, payload_rating data = some r ∧ 0 ≤ r ∧ r ≤ 5 ∧
    ∃ p, payload_price data = some p ∧ 0 ≤ p ∧
    c = ⟨payload_title data, payload_author data, y,
         (if payload_category data ∈ CATEGORY_OPTIONS then payload_category data
          else "Other"),
         r, p,
         (if payload_image data = "" then PLACEHOLDER_IMG else payload_image data)⟩ := by
  unfold validate_book_payload at h
  by_cases ht : payload_title data = ""
  · rw [if_pos ht] at h
    exact absurd h (by simp)
  rw [if_neg ht] at h
  by_cases ha : payload_author data = ""
  · rw [if_pos ha] at h
    exact absurd h (by simp)
  rw [if_neg ha] at h
  rcases hy : payload_year data with _ | y <;> rw [hy] at h
  · exact absurd h (by simp)
  dsimp only at h
  by_cases hyr : y < 0 ∨ y > 2100
  · rw [if_pos hyr] at h
    exact absurd h (by simp)
  rw [if_neg hyr] at h
  rcases hr : payload_rating data with _ | r <;> rw [hr] at h
  · exact absurd h (by simp)
  dsimp only at h
  by_cases hrr : r < 0 ∨ r > 5
  · rw [if_pos hrr] at h
    exact absurd h (by simp)
  rw [if_neg hrr] at h
  rcases hp : payload_price data with _ | p <;> rw [hp] at h
  · exact absurd h (by simp)
  dsimp only at h
  by_cases hpr : p < 0
  · rw [if_pos hpr] at h
    exact absurd h (by simp)
  rw [if_neg hpr] at h
  dsimp only at h
  rw [Option.some.injEq] at h
  push_neg at hyr hrr hpr
  exact ⟨ht, ha, y, rfl, hyr.1, hyr.2, r, rfl, hrr.1, hrr.2, p, rfl, hpr, h.symm⟩

lemma payload_get_cons_ne (k2 : String) (v : Value) (d : Payload) (k : String)
    (dflt : Value) (h : (k == k2) = false) :
    Payload.get ((k2, v) :: d) k dflt = Payload.get d k dflt := by
  simp [Payload.get, List.lookup, h]

lemma payload_title_category_cons (v : Value) (data : Payload) :
    payload_title (("category", v) :: data) = payload_title data := by
  unfold payload_title
  rw [payload_get_cons_ne _ _ _ _ _ (by decide)]

lemma payload_author_category_cons (v : Value) (data : Payload) :
    payload_author (("category", v) :: data) = payload_author data := by
  unfold payload_author
  rw [payload_get_cons_ne _ _ _ _ _ (by decide)]

lemma payload_year_category_cons (v : Value) (data : Payload) :
    payload_year (("category", v) :: data) = payload_year data := by
  unfold payload_year
  rw [payload_get_cons_ne _ _ _ _ _ (by decide)]

lemma payload_rating_category_cons (v : Value) (data : Payload) :
    payload_rating (("category", v) :: data) = payload_rating data := by
  unfold payload_rating
  rw [payload_get_cons_ne _ _ _ _ _ (by decide)]

lemma payload_price_category_cons (v : Value) (data : Payload) :
    payload_price (("category", v) :: data) = payload_price data := by
  unfold payload_price
  rw [payload_get_cons_ne _ _ _ _ _ (by decide)]

lemma payload_image_category_cons (v : Value) (data : Payload) :
    payload_image (("category", v) :: data) = payload_image data := by
  unfold payload_image
  rw [payload_get_cons_ne _ _ _ _ _ (by decide)]

lemma validate_fst_category_override (data : Payload) (v : Value) :
    (validate_book_payload (("category", v) :: data)).1
      = (validate_book_payload data).1 := by
  unfold validate_book_payload
  rw [payload_title_category_cons, payload_author_category_cons,
    payload_year_category_cons, payload_rating_category_cons,
    payload_price_category_cons, payload_image_category_cons]
  cases hy : payload_year data <;> cases hr : payload_rating data <;>
    cases hp : payload_price data <;> dsimp only <;> first
    | rfl
    | (split_ifs <;> rfl)

lemma validate_fst_eq_spec_first_failing (data : Payload) :
    (validate_book_payload data).1 = spec_first_failing data := by
  unfold validate_book_payload spec_first_failing fails_title fails_author
    fails_year_presence fails_year_range fails_rating_numeric fails_rating_range
    fails_price_numeric fails_price_range
  by_cases ht : payload_title data = ""
  · simp [ht]
  by_cases ha : payload_author data = ""
  · simp [ht, ha]
  cases hy : payload_year data with
  | none => simp [ht, ha]
  | some y =>
    by_cases hyr : y < 0 ∨ y > 2100
    · simp [ht, ha, hyr]
    cases hr : payload_rating data with
    | none => simp [ht, ha, hyr]
    | some r =>
      by_cases hrr : r < 0 ∨ r > 5
      · simp [ht, ha, hyr, hrr]
      cases hp : payload_price data with
      | none => simp [ht, ha, hyr, hrr]
      | some p =>
        by_cases hpr : p < 0
        · simp [ht, ha, hyr, hrr, hpr]
        · simp [ht, ha, hyr, hrr, hpr]

/-! Claim theorems. -/

/-- C3: for every input mapping the validator returns either an error
message or a cleaned record (one of the two, never both), and the error
message is exactly the message of the first failing rule in the fixed
order title present → author present → year present and numeric → year in
range → rating numeric → rating in range → price numeric → price in
range. -/
theorem validator_first_failing_rule (data : Payload) :
    (validate_book_payload data).1 = spec_first_failing data ∧
    ((validate_book_payload data).2.isSome ↔ (validate_book_payload data).1 = none) :=
  ⟨validate_fst_eq_spec_first_failing data, (validate_exclusive data).symm⟩

/-- C4: every listing response returns at most `pageSize` items, reports
the resolved page size, and its `total` is the number of stored records
matching the free-text and category filters — hence independent of the
requested page and page size. -/
theorem listing_size_and_total (store : List Book) (a : ListArgs) :
    (get_books store a).items.length ≤ ((get_books store a).pageSize).toNat ∧
    (get_books store a).pageSize = resolved_page_size a ∧
    (get_books store a).total
      = (store.filter (book_matches (q_arg a) (category_arg a))).length ∧
    ∀ a2 : ListArgs, q_arg a2 = q_arg a → category_arg a2 = category_arg a →
      (get_books store a2).total = (get_books store a).total := by
  refine ⟨?_, rfl, rfl, ?_⟩
  · simp only [get_books]
    rw [List.length_take]
    exact min_le_left _ _
  · intro a2 hq hc
    simp only [get_books, filtered_books, hq, hc]

/-- C4 witness: a concrete store and two argument sets differing only in
page and page size give the same total; the item count is within the page
size. -/
theorem listing_size_and_total_witness :
    (get_books [bk 1 "Dune" "Sci-Fi", bk 2 "Emma" "Classic"]
        ⟨some "3", some "5", some " x ", none, none, none⟩).total
      = (get_books [bk 1 "Dune" "Sci-Fi", bk 2 "Emma" "Classic"]
        ⟨none, none, some "x", none, none, none⟩).total := by
  have h := listing_size_and_total [bk 1 "Dune" "Sci-Fi", bk 2 "Emma" "Classic"]
    ⟨none, none, some "x", none, none, none⟩
  exact h.2.2.2 ⟨some "3", some "5", some " x ", none, none, none⟩ (by decide) (by decide)

/-- C5: malformed listing parameters never fail: page below 1 (or
unparsable) resolves to 1, a page size outside {5,10,20,50} resolves to
10, an unknown sort field resolves to `created_at`, and a sort direction
other than asc/desc resolves to desc; the resolved page size is echoed in
the response. -/
theorem listing_param_fallbacks (store : List Book) (a : ListArgs) :
    1 ≤ resolved_page a ∧
    (arg_int a.page 1 < 1 → resolved_page a = 1) ∧
    (1 ≤ arg_int a.page 1 → resolved_page a = arg_int a.page 1) ∧
    resolved_page_size a ∈ ALLOWED_PAGE_SIZES ∧
    (arg_int a.pageSize 10 ∉ ALLOWED_PAGE_SIZES → resolved_page_size a = 10) ∧
    resolved_sort_by a ∈ ALLOWED_SORT_FIELDS ∧
    (pyStrip (a.sortBy.getD "created_at") ∉ ALLOWED_SORT_FIELDS →
      resolved_sort_by a = "created_at") ∧
    (resolved_sort_dir a = "asc" ∨ resolved_sort_dir a = "desc") ∧
    (pyLower (pyStrip (a.sortDir.getD "desc")) ≠ "asc" →
      pyLower (pyStrip (a.sortDir.getD "desc")) ≠ "desc" →
      resolved_sort_dir a = "desc") ∧
    (get_books store a).pageSize ∈ ALLOWED_PAGE_SIZES := by
  refine ⟨resolved_page_ge_one a, ?_, ?_, resolved_page_size_mem a, ?_, ?_, ?_, ?_, ?_,
    resolved_page_size_mem a⟩
  · intro h
    unfold resolved_page
    dsimp only
    rw [if_pos h]
  · intro h
    unfold resolved_page
    dsimp only
    rw [if_neg (by omega)]
  · intro h
    unfold resolved_page_size
    dsimp only
    rw [if_neg h]
  · unfold resolved_sort_by
    dsimp only
    split_ifs with h
    · exact h
    · decide
  · intro h
    unfold resolved_sort_by
    dsimp only
    rw [if_neg h]
  · unfold resolved_sort_dir
    dsimp only
    split_ifs with h
    · exact h
    · exact Or.inr rfl
  · intro h1 h2
    unfold resolved_sort_dir
    dsimp only
    rw [if_neg (by tauto)]

/-- C5 witness: out-of-range and malformed parameters resolve to the
documented defaults on a concrete argument set. -/
theorem listing_param_fallbacks_witness :
    resolved_page ⟨some "0", some "7", none, none, some "bogus", some "up"⟩ = 1 ∧
    resolved_page_size ⟨some "0", some "7", none, none, some "bogus", some "up"⟩ = 10 ∧
    resolved_sort_by ⟨some "0", some "7", none, none, some "bogus", some "up"⟩
      = "created_at" ∧
    resolved_sort_dir ⟨some "0", some "7", none, none, some "bogus", some "up"⟩
      = "desc" := by
  obtain ⟨h1, h2, h3, h4, h5, h6, h7, h8, h9, h10⟩ :=
    listing_param_fallbacks [] ⟨some "0", some "7", none, none, some "bogus", some "up"⟩
  exact ⟨h2 (by decide), h5 (by decide), h7 (by decide), h9 (by decide) (by decide)⟩

/-- C1 counterexample: with one stored record, requesting page 2 (beyond
the single total page, with a matching record) reports the clamped page
number 1 but returns an empty items list, not the items of the last page —
the query ran at the original offset. -/
theorem page_overshoot_counterexample :
    (get_books [bk 1 "Dune" "Sci-Fi"] ⟨some "2", none, none, none, none, none⟩).total
      = 1 ∧
    (get_books [bk 1 "Dune" "Sci-Fi"] ⟨some "2", none, none, none, none, none⟩).totalPages
      = 1 ∧
    resolved_page ⟨some "2", none, none, none, none, none⟩ = 2 ∧
    (get_books [bk 1 "Dune" "Sci-Fi"] ⟨some "2", none, none, none, none, none⟩).page
      = 1 ∧
    (get_books [bk 1 "Dune" "Sci-Fi"] ⟨some "2", none, none, none, none, none⟩).items
      = [] ∧
    (get_books [bk 1 "Dune" "Sci-Fi"] ⟨some "1", none, none, none, none, none⟩).items
      = [bk 1 "Dune" "Sci-Fi"] ∧
    (get_books [bk 1 "Dune" "Sci-Fi"] ⟨some "2", none, none, none, none, none⟩).items
      ≠ (get_books [bk 1 "Dune" "Sci-Fi"] ⟨some "1", none, none, none, none, none⟩).items := by
  decide

/-- C1 amended: when the requested (resolved) page exceeds the total page
count and at least one record matches, the response reports the clamped
(last) page number in its page field, but its items list is the one
fetched at the originally requested offset, which is empty — not the items
of the last page. -/
theorem page_overshoot_reports_clamp_but_items_empty (store : List Book) (a : ListArgs)
    (h1 : 0 < (get_books store a).total)
    (h2 : (get_books store a).totalPages < resolved_page a) :
    (get_books store a).page = (get_books store a).totalPages ∧
    (get_books store a).items = [] := by
  have h1' : 0 < (filtered_books store a).length := h1
  have h2' : listing_total_pages store a < resolved_page a := h2
  have hps := resolved_page_size_pos a
  constructor
  · show (if resolved_page a > listing_total_pages store a ∧
          0 < (filtered_books store a).length then listing_total_pages store a
        else resolved_page a) = listing_total_pages store a
    rw [if_pos ⟨h2', h1'⟩]
  · show ((ordered_books store a).drop (listing_offset a)).take
      (resolved_page_size a).toNat = []
    have hlen : (ordered_books store a).length = (filtered_books store a).length := by
      unfold ordered_books
      exact length_orderBooks _ _
    have key : (filtered_books store a).length ≤ listing_offset a := by
      have htp : listing_total_pages store a
          = max 1 ((ceil_div (filtered_books store a).length
              (resolved_page_size a).toNat : ℕ) : ℤ) := by
        unfold listing_total_pages
        rw [if_neg (by omega)]
      have hcast : ((resolved_page_size a).toNat : ℤ) = resolved_page_size a :=
        Int.toNat_of_nonneg (le_of_lt hps)
      have hceil : ((filtered_books store a).length : ℤ)
          ≤ (ceil_div (filtered_books store a).length (resolved_page_size a).toNat : ℤ)
            * ((resolved_page_size a).toNat : ℤ) := by
        exact_mod_cast le_ceil_div_mul _ _ (by omega)
      have hcle : ((ceil_div (filtered_books store a).length
            (resolved_page_size a).toNat : ℕ) : ℤ) ≤ listing_total_pages store a := by
        rw [htp]
        exact le_max_right _ _
      have hp1 : listing_total_pages store a ≤ resolved_page a - 1 := by omega
      have hint : ((filtered_books store a).length : ℤ)
          ≤ (resolved_page a - 1) * resolved_page_size a := by
        calc ((filtered_books store a).length : ℤ)
            ≤ (ceil_div (filtered_books store a).length (resolved_page_size a).toNat : ℤ)
              * ((resolved_page_size a).toNat : ℤ) := hceil
          _ = (ceil_div (filtered_books store a).length (resolved_page_size a).toNat : ℤ)
              * resolved_page_size a := by rw [hcast]
          _ ≤ listing_total_pages store a * resolved_page_size a :=
              mul_le_mul_of_nonneg_right hcle (le_of_lt hps)
          _ ≤ (resolved_page a - 1) * resolved_page_size a :=
              mul_le_mul_of_nonneg_right hp1 (le_of_lt hps)
      unfold listing_offset
      set z := (resolved_page a - 1) * resolved_page_size a with hz
      omega
    rw [List.drop_eq_nil_of_le (hlen ▸ key), List.take_nil]

/-- C1 witness: concrete overshooting request for the amended claim. -/
theorem page_overshoot_witness :
    (get_books [bk 1 "Dune" "Sci-Fi"] ⟨some "3", none, none, none, none, none⟩).page
      = (get_books [bk 1 "Dune" "Sci-Fi"]
          ⟨some "3", none, none, none, none, none⟩).totalPages ∧
    (get_books [bk 1 "Dune" "Sci-Fi"] ⟨some "3", none, none, none, none, none⟩).items
      = [] :=
  page_overshoot_reports_clamp_but_items_empty _ _ (by decide) (by decide)

/-- C2 counterexample: a payload omitting both rating and price passes
validation (both default to 0) and the create operation stores a record,
contradicting the claim that the operation returns a validation error. -/
theorem omitted_rating_price_counterexample :
    (([("title", Value.str "T"), ("author", Value.str "A"), ("year", Value.int 2000)] :
        Payload).lookup "rating" = none) ∧
    (([("title", Value.str "T"), ("author", Value.str "A"), ("year", Value.int 2000)] :
        Payload).lookup "price" = none) ∧
    validate_book_payload
        [("title", .str "T"), ("author", .str "A"), ("year", .int 2000)]
      = (none, some ⟨"T", "A", 2000, "Other", 0, 0, PLACEHOLDER_IMG⟩) ∧
    create_book [] [("title", .str "T"), ("author", .str "A"), ("year", .int 2000)] 1 0
      = (.okBook ⟨1, "T", "A", 2000, "Other", 0, 0, PLACEHOLDER_IMG, 0⟩,
         [⟨1, "T", "A", 2000, "Other", 0, 0, PLACEHOLDER_IMG, 0⟩]) := by
  decide

/-- C2 amended: a payload that omits the rating field does not fail
validation on account of rating — the field defaults to 0, any cleaned
record stores rating 0, and neither rating error message can be returned;
symmetrically, a payload that omits the price field defaults it to 0,
stores price 0, and can return neither price error message. -/
theorem omitted_rating_price_default_zero (data : Payload) (c : Cleaned) :
    (data.lookup "rating" = none →
      payload_rating data = some 0 ∧
      ((validate_book_payload data).2 = some c → c.rating = 0) ∧
      (validate_book_payload data).1 ≠ some "Rating must be a number." ∧
      (validate_book_payload data).1 ≠ some "Rating must be 0–5.") ∧
    (data.lookup "price" = none →
      payload_price data = some 0 ∧
      ((validate_book_payload data).2 = some c → c.price = 0) ∧
      (validate_book_payload data).1 ≠ some "Price must be a number." ∧
      (validate_book_payload data).1 ≠ some "Price must be >= 0.") := by
  constructor
  · intro hr
    have hr0 : payload_rating data = some 0 := by
      simp [payload_rating, Payload.get, hr, safe_float, pyFloat]
    have hnum : fails_rating_numeric data = false := by
      simp [fails_rating_numeric, hr0]
    have hrange : fails_rating_range data = false := by
      unfold fails_rating_range
      rw [hr0]
      norm_num
    refine ⟨hr0, ?_, ?_, ?_⟩
    · intro hc
      obtain ⟨-, -, y, hy, -, -, r, hrEq, -, -, p, hpEq, -, hcEq⟩ :=
        validate_snd_some data c hc
      rw [hr0] at hrEq
      injection hrEq with hre
      rw [hcEq]
      exact hre.symm
    · rw [validate_fst_eq_spec_first_failing data]
      unfold spec_first_failing
      rw [hnum, hrange]
      simp only [Bool.false_eq_true, if_false]
      split_ifs <;> decide
    · rw [validate_fst_eq_spec_first_failing data]
      unfold spec_first_failing
      rw [hnum, hrange]
      simp only [Bool.false_eq_true, if_false]
      split_ifs <;> decide
  · intro hp
    have hp0 : payload_price data = some 0 := by
      simp [payload_price, Payload.get, hp, safe_float, pyFloat]
    have hnum : fails_price_numeric data = false := by
      simp [fails_price_numeric, hp0]
    have hrange : fails_price_range data = false := by
      unfold fails_price_range
      rw [hp0]
      norm_num
    refine ⟨hp0, ?_, ?_, ?_⟩
    · intro hc
      obtain ⟨-, -, y, hy, -, -, r, hrEq, -, -, p, hpEq, -, hcEq⟩ :=
        validate_snd_some data c hc
      rw [hp0] at hpEq
      injection hpEq with hpe
      rw [hcEq]
      exact hpe.symm
    · rw [validate_fst_eq_spec_first_failing data]
      unfold spec_first_failing
      rw [hnum, hrange]
      simp only [Bool.false_eq_true, if_false]
      split_ifs <;> decide
    · rw [validate_fst_eq_spec_first_failing data]
      unfold spec_first_failing
      rw [hnum, hrange]
      simp only [Bool.false_eq_true, if_false]
      split_ifs <;> decide

/-- C2 witness: one payload omitting only the rating key (price present)
and one omitting only the price key (rating present); each omitted field
defaults to 0. -/
theorem omitted_rating_price_default_zero_witness :
    payload_rating [("title", Value.str "T2"), ("author", Value.str "A"),
      ("year", Value.int 1999), ("price", Value.int 5)] = some 0 ∧
    payload_price [("title", Value.str "T3"), ("author", Value.str "A"),
      ("year", Value.int 1999), ("rating", Value.int 2)] = some 0 := by
  have h1 := omitted_rating_price_default_zero
    [("title", Value.str "T2"), ("author", Value.str "A"), ("year", Value.int 1999),
     ("price", Value.int 5)]
    ⟨"T2", "A", 1999, "Other", 0, 5, PLACEHOLDER_IMG⟩
  have h2 := omitted_rating_price_default_zero
    [("title", Value.str "T3"), ("author", Value.str "A"), ("year", Value.int 1999),
     ("rating", Value.int 2)]
    ⟨"T3", "A", 1999, "Other", 2, 0, PLACEHOLDER_IMG⟩
  exact ⟨(h1.1 (by decide)).1, (h2.2 (by decide)).1⟩

/-- C6: updating an existing record with a payload that passes validation
returns the record with every cleaned field (title, author, year,
category, rating, price, image URL) overwritten, while its id and
created_at are unchanged; the store replaces exactly that row. -/
theorem update_overwrites_only_mutable_fields (store : List Book) (book_id : ℤ)
    (data : Payload) (c : Cleaned) (b : Book)
    (hv : validate_book_payload data = (none, some c))
    (hb : store.find? (fun x => x.id == book_id) = some b) :
    (update_book store book_id data).1 = .okBook (apply_cleaned b c) ∧
    (apply_cleaned b c).id = b.id ∧
    (apply_cleaned b c).created_at = b.created_at ∧
    (apply_cleaned b c).title = c.title ∧
    (apply_cleaned b c).author = c.author ∧
    (apply_cleaned b c).year = c.year ∧
    (apply_cleaned b c).category = c.category ∧
    (apply_cleaned b c).rating = c.rating ∧
    (apply_cleaned b c).price = c.price ∧
    (apply_cleaned b c).image_url = c.image_url ∧
    (update_book store book_id data).2 = replaceFirst book_id c store := by
  unfold update_book
  rw [hv]
  dsimp only
  rw [hb]
  exact ⟨rfl, rfl, rfl, rfl, rfl, rfl, rfl, rfl, rfl, rfl, rfl⟩

/-- C6 witness: a concrete valid update of an existing record. -/
theorem update_overwrites_witness :
    (update_book [bk 1 "Dune" "Sci-Fi"] 1
        [("title", Value.str "New"), ("author", Value.str "B"),
         ("year", Value.int 2001), ("rating", Value.str "4.5"),
         ("price", Value.int 20), ("category", Value.str "Horror"),
         ("imageUrl", Value.str "http://x")]).1
      = .okBook (apply_cleaned (bk 1 "Dune" "Sci-Fi")
          ⟨"New", "B", 2001, "Horror", mkRat 9 2, 20, "http://x"⟩) ∧
    (apply_cleaned (bk 1 "Dune" "Sci-Fi")
        ⟨"New", "B", 2001, "Horror", mkRat 9 2, 20, "http://x"⟩).created_at
      = (bk 1 "Dune" "Sci-Fi").created_at := by
  have h := update_overwrites_only_mutable_fields [bk 1 "Dune" "Sci-Fi"] 1
    [("title", Value.str "New"), ("author", Value.str "B"),
     ("year", Value.int 2001), ("rating", Value.str "4.5"),
     ("price", Value.int 20), ("category", Value.str "Horror"),
     ("imageUrl", Value.str "http://x")]
    ⟨"New", "B", 2001, "Horror", mkRat 9 2, 20, "http://x"⟩
    (bk 1 "Dune" "Sci-Fi") (by decide) (by decide)
  exact ⟨h.1, h.2.2.1⟩

/-- C7 counterexample: an update whose id matches no record but whose
payload is invalid returns a 400 validation error, not the 404 the claim
requires for every unmatched-id update request. -/
theorem update_missing_id_invalid_payload_counterexample :
    (([] : List Book).find? (fun x => x.id == (1 : ℤ)) = none) ∧
    (update_book [] 1 []).1 = .badRequest "Title is required." ∧
    (update_book [] 1 []).1 ≠ .notFound := by
  decide

/-- C7 amended: when the id matches no stored record, delete returns 404
with the store unchanged, and update returns 404 with the store unchanged
provided its payload passes validation; an update with an invalid payload
returns the 400 validation error instead, still leaving the store
unchanged (all-or-nothing in every case). -/
theorem missing_id_not_found_store_unchanged (store : List Book) (book_id : ℤ)
    (data : Payload) (hfind : store.find? (fun x => x.id == book_id) = none) :
    delete_book store book_id = (.notFound, store) ∧
    ((validate_book_payload data).1 = none →
      update_book store book_id data = (.notFound, store)) ∧
    ∀ e, (validate_book_payload data).1 = some e →
      update_book store book_id data = (.badRequest e, store) := by
  refine ⟨?_, ?_, ?_⟩
  · unfold delete_book
    rw [hfind]
  · intro h
    have h2 : (validate_book_payload data).2.isSome := (validate_exclusive data).mp h
    obtain ⟨c, hc⟩ := Option.isSome_iff_exists.mp h2
    have hv : validate_book_payload data = (none, some c) := by
      rw [← h, ← hc]
    unfold update_book
    rw [hv]
    dsimp only
    rw [hfind]
  · intro e he
    have hsnd : (validate_book_payload data).2 = none := by
      rcases h2s : (validate_book_payload data).2 with _ | c
      · rfl
      · have hnone : (validate_book_payload data).1 = none :=
          (validate_exclusive data).mpr (by rw [h2s]; rfl)
        rw [he] at hnone
        cases hnone
    have hv : validate_book_payload data = (some e, none) := by
      rw [← he, ← hsnd]
    unfold update_book
    rw [hv]

/-- C7 witness: concrete unmatched-id delete and valid-payload update. -/
theorem missing_id_not_found_witness :
    delete_book [bk 1 "Dune" "Sci-Fi"] 2 = (.notFound, [bk 1 "Dune" "Sci-Fi"]) ∧
    update_book [bk 1 "Dune" "Sci-Fi"] 2
        [("title", .str "T"), ("author", .str "A"), ("year", .int 2000)]
      = (.notFound, [bk 1 "Dune" "Sci-Fi"]) := by
  have h := missing_id_not_found_store_unchanged [bk 1 "Dune" "Sci-Fi"] 2
    [("title", .str "T"), ("author", .str "A"), ("year", .int 2000)] (by decide)
  exact ⟨h.1, h.2.1 (by decide)⟩

/-- C8: the category of any cleaned record is in the fixed category set; a
category outside the set (or an absent category key) is silently replaced
with "Other" and never causes an error (overriding the category key never
changes the error output of the validator); a missing or empty imageUrl is
replaced by the fixed placeholder. -/
theorem category_fallback_image_placeholder (data : Payload) (c : Cleaned)
    (h : (validate_book_payload data).2 = some c) :
    c.category ∈ CATEGORY_OPTIONS ∧
    (payload_category data ∉ CATEGORY_OPTIONS → c.category = "Other") ∧
    (data.lookup "category" = none → c.category = "Other") ∧
    (payload_image data = "" → c.image_url = PLACEHOLDER_IMG) ∧
    (data.lookup "imageUrl" = none → c.image_url = PLACEHOLDER_IMG) ∧
    ∀ v : Value, (validate_book_payload (("category", v) :: data)).1
      = (validate_book_payload data).1 := by
  obtain ⟨-, -, y, hy, -, -, r, hr, -, -, p, hp, -, hcEq⟩ := validate_snd_some data c h
  subst hcEq
  refine ⟨?_, ?_, ?_, ?_, ?_, fun v => validate_fst_category_override data v⟩
  · dsimp only
    split_ifs with hmem
    · exact hmem
    · decide
  · intro hnot
    dsimp only
    rw [if_neg hnot]
  · intro hlk
    have hcat : payload_category data = "Other" := by
      unfold payload_category
      rw [show Payload.get data "category" (.str "Other") = .str "Other" from by
        simp [Payload.get, hlk]]
      decide
    dsimp only
    rw [hcat]
    split_ifs with hmem
    · rfl
    · rfl
  · intro himg
    dsimp only
    rw [if_pos himg]
  · intro hlk
    have himg : payload_image data = "" := by
      unfold payload_image
      rw [show Payload.get data "imageUrl" (.str "") = .str "" from by
        simp [Payload.get, hlk]]
      decide
    dsimp only
    rw [if_pos himg]

/-- C8 witness: creating with category "Nonexistent" and no imageUrl
yields category "Other" and the placeholder image, not an error. -/
theorem category_fallback_witness :
    (Cleaned.mk "T" "A" 2000 "Other" 0 0 PLACEHOLDER_IMG).category = "Other" ∧
    (Cleaned.mk "T" "A" 2000 "Other" 0 0 PLACEHOLDER_IMG).image_url
      = PLACEHOLDER_IMG := by
  have h := category_fallback_image_placeholder
    [("title", .str "T"), ("author", .str "A"), ("year", .int 2000),
     ("category", .str "Nonexistent")]
    ⟨"T", "A", 2000, "Other", 0, 0, PLACEHOLDER_IMG⟩ (by decide)
  exact ⟨h.2.1 (by decide), h.2.2.2.2.1 (by decide)⟩

lemma stats_page_size_mem (a : Option String) :
    stats_page_size a ∈ ALLOWED_PAGE_SIZES := by
  unfold stats_page_size
  dsimp only
  split_ifs with h
  · exact h
  · decide

lemma mem_count_by_category (store : List Book) (cat : String) (n : ℕ) :
    (cat, n) ∈ count_by_category store ↔
      cat ∈ store.map Book.category ∧
      n = ((store.map Book.category).filter (· == cat)).length := by
  unfold count_by_category
  constructor
  · intro hmem
    rcases List.mem_map.mp hmem with ⟨c, hcdedup, heq⟩
    injection heq with h1 h2
    subst h1
    subst h2
    exact ⟨List.mem_dedup.mp hcdedup, rfl⟩
  · rintro ⟨hmem, rfl⟩
    exact List.mem_map.mpr ⟨cat, List.mem_dedup.mpr hmem, rfl⟩

/-- C9: the stats response reports the full record count; the averages
and price sum are 0 on an empty store; on a non-empty store the average
year is the mean year rounded to the nearest integer (within 1/2), the
average rating is the mean rating rounded to two decimals (a multiple of
1/100 within 1/200 of the mean), and the total value is the price sum
rounded to two decimals; the per-category counts contain exactly the
categories present with their multiplicities; the pageSize parameter is
validated against the allowed set but only echoed — every other field is
independent of it. -/
theorem stats_full_store_aggregates (store : List Book) (a : Option String) :
    (stats store a).total = store.length ∧
    (stats store a).pageSize = stats_page_size a ∧
    stats_page_size a ∈ ALLOWED_PAGE_SIZES ∧
    (store = [] → (stats store a).averagePublicationYear = 0 ∧
      (stats store a).averageRating = 0 ∧ (stats store a).totalValue = 0) ∧
    (store ≠ [] →
      |((stats store a).averagePublicationYear : ℚ)
          - (sum_years store : ℚ) / (store.length : ℚ)| ≤ 1 / 2 ∧
      |(stats store a).averageRating - sum_ratings store / (store.length : ℚ)| ≤ 1 / 200 ∧
      |(stats store a).totalValue - sum_prices store| ≤ 1 / 200) ∧
    (∃ k : ℤ, (stats store a).averageRating = (k : ℚ) / 100) ∧
    (∃ k : ℤ, (stats store a).totalValue = (k : ℚ) / 100) ∧
    (∀ cat n, ((cat, n) ∈ (stats store a).countByCategory) ↔
      (cat ∈ store.map Book.category ∧
       n = ((store.map Book.category).filter (· == cat)).length)) ∧
    (∀ a2 : Option String,
      stats store a2 = { stats store a with pageSize := stats_page_size a2 }) := by
  refine ⟨rfl, rfl, stats_page_size_mem a, ?_, ?_, ?_, ?_, ?_, ?_⟩
  · rintro rfl
    refine ⟨rfl, ?_, ?_⟩ <;> with_unfolding_all rfl
  · intro hne
    have hlen : store.length ≠ 0 := by
      simpa [List.length_eq_zero] using hne
    have h1 : (stats store a).averagePublicationYear
        = pyRound ((sum_years store : ℚ) / (store.length : ℚ)) := by
      show (if store.length ≠ 0 then
          pyRound (if store.length = 0 then 0
            else (sum_years store : ℚ) / (store.length : ℚ))
        else 0) = _
      rw [if_pos hlen, if_neg hlen]
    have h2 : (stats store a).averageRating
        = round2 (sum_ratings store / (store.length : ℚ)) := by
      show round2 (if store.length = 0 then 0
          else sum_ratings store / (store.length : ℚ)) = _
      rw [if_neg hlen]
    have h3 : (stats store a).totalValue = round2 (sum_prices store) := by
      show round2 (if store.length = 0 then 0 else sum_prices store) = _
      rw [if_neg hlen]
    rw [h1, h2, h3]
    exact ⟨abs_pyRound_sub_le _, abs_round2_sub_le _, abs_round2_sub_le _⟩
  · exact round2_den _
  · exact round2_den _
  · exact fun cat n => mem_count_by_category store cat n
  · intro a2
    rfl

/-- C9 witness: concrete two-record store with an out-of-set pageSize
hint. -/
theorem stats_full_store_aggregates_witness :
    (stats [bk 1 "Dune" "Sci-Fi", bk 2 "Emma" "Sci-Fi"] (some "7")).total = 2 ∧
    (stats [bk 1 "Dune" "Sci-Fi", bk 2 "Emma" "Sci-Fi"] (some "7")).pageSize = 10 ∧
    |(stats [bk 1 "Dune" "Sci-Fi", bk 2 "Emma" "Sci-Fi"] (some "7")).averageRating
        - sum_ratings [bk 1 "Dune" "Sci-Fi", bk 2 "Emma" "Sci-Fi"]
          / (([bk 1 "Dune" "Sci-Fi", bk 2 "Emma" "Sci-Fi"] : List Book).length : ℚ)|
      ≤ 1 / 200 := by
  have h := stats_full_store_aggregates [bk 1 "Dune" "Sci-Fi", bk 2 "Emma" "Sci-Fi"]
    (some "7")
  refine ⟨h.1, ?_, (h.2.2.2.2.1 (by decide)).2.1⟩
  rw [h.2.1]
  with_unfolding_all rfl

/-- C10: a title key bound to null is stringified to "None" before the
emptiness check, so it passes the title-present rule and any cleaned
record stores the literal string "None" as title. -/
theorem null_title_stringified (data : Payload) (c : Cleaned)
    (ht : data.lookup "title" = some Value.null) :
    payload_title data = "None" ∧
    (validate_book_payload data).1 ≠ some "Title is required." ∧
    ((validate_book_payload data).2 = some c → c.title = "None") := by
  have htt : payload_title data = "None" := by
    unfold payload_title
    rw [show Payload.get data "title" (.str "") = Value.null from by
      simp [Payload.get, ht]]
    decide
  refine ⟨htt, ?_, ?_⟩
  · intro heq
    rw [validate_fst_eq_spec_first_failing data] at heq
    unfold spec_first_failing at heq
    rw [show fails_title data = false from by simp [fails_title, htt]] at heq
    simp only [Bool.false_eq_true, if_false] at heq
    split_ifs at heq <;> exact absurd heq (by decide)
  · intro h2
    obtain ⟨-, -, y, hy, -, -, r, hr, -, -, p, hp, -, hcEq⟩ := validate_snd_some data c h2
    rw [hcEq]
    exact htt

/-- C10 witness: a payload whose title is null passes validation and
stores "None". -/
theorem null_title_stringified_witness :
    payload_title [("title", Value.null), ("author", Value.str "A"),
      ("year", Value.int 2000)] = "None" ∧
    (Cleaned.mk "None" "A" 2000 "Other" 0 0 PLACEHOLDER_IMG).title = "None" := by
  have h := null_title_stringified
    [("title", Value.null), ("author", Value.str "A"), ("year", Value.int 2000)]
    ⟨"None", "A", 2000, "Other", 0, 0, PLACEHOLDER_IMG⟩ (by decide)
  exact ⟨h.1, h.2.2 (by decide)⟩

end BookApp

section Sanity
open BookApp
example : pyStrip "  ab " = "ab" := by decide
example : pyLower "AbC" = "abc" := by decide
example : pyInt (.str " 12 ") = some 12 := by decide
example : pyInt (.str "12.5") = none := by decide
example : pyFloat (.str "2.5") = some (mkRat 5 2) := by decide
example : pyFloat (.str "-0.25") = some (-(mkRat 1 4)) := by decide
example : pyInt (.float (mkRat (-5) 2)) = some (-2) := by decide
example : pyInt (.float (mkRat 5 2)) = some 2 := by decide
example : pyFloat (.str "abc") = none := by decide
example :
    validate_book_payload [("title", .str "T"), ("author", .str "A"), ("year", .int 2000)]
      = (none, some ⟨"T", "A", 2000, "Other", 0, 0, PLACEHOLDER_IMG⟩) := by decide
example :
    (validate_book_payload [("title", .str "  ")]).1 = some "Title is required." := by decide

example :
    (get_books [bk 1 "Dune" "Sci-Fi", bk 2 "Emma" "Classic"]
      ⟨none, none, some "dU", none, none, none⟩).total = 1 := by decide
example :
    (get_books [bk 1 "Dune" "Sci-Fi", bk 2 "Emma" "Classic"]
      ⟨some "5", none, none, none, none, none⟩).page = 1 := by decide
example :
    (get_books [bk 1 "Dune" "Sci-Fi", bk 2 "Emma" "Classic"]
      ⟨some "5", none, none, none, none, none⟩).items = [] := by decide
example :
    (get_books [bk 1 "B" "Sci-Fi", bk 2 "A" "Classic"]
      ⟨none, none, none, none, some "title", some "asc"⟩).items
      = [bk 2 "A" "Classic", bk 1 "B" "Sci-Fi"] := by decide
example : pyRound (mkRat 5 2) = 2 := by with_unfolding_all rfl
example : pyRound (mkRat 7 2) = 4 := by with_unfolding_all rfl
example : pyRound (mkRat 49 10) = 5 := by with_unfolding_all rfl
example : pyRound (-(mkRat 5 2)) = -2 := by with_unfolding_all rfl
example :
    (stats [bk 1 "Dune" "Sci-Fi", bk 2 "Emma" "Sci-Fi", bk 3 "X" "Other"] none).total
      = 3 := by with_unfolding_all rfl
example :
    (stats [bk 1 "Dune" "Sci-Fi", bk 2 "Emma" "Sci-Fi", bk 3 "X" "Other"] none).countByCategory
      = [("Sci-Fi", 2), ("Other", 1)] := by with_unfolding_all rfl
example :
    (stats ([] : List Book) (some "20")).averageRating = 0 := by with_unfolding_all rfl
example :
    (update_book [bk 1 "Dune" "Sci-Fi"] 2 [("title", .str "T"), ("author", .str "A"),
      ("year", .int 2000)]).1 = .notFound := by decide
end Sanity
